import Mathlib

/-!
Shallow embedding of the filesystem shim in `src/src/dir.cc` and
`src/src/rename.cc`.

The two source files expose three operations built on libuv's filesystem API,
used in blocking mode (null callback):
  * `mkdir_`  — create each path in a vector with a mode parsed once from a
    mode string (`setmode`/`getmode`), tolerating `UV_EEXIST`;
  * `scandir_` — scan each path in a vector, filter entries by an integer type
    tag (`-1` = no filter), join the directory prefix with each entry name, and
    return one flat vector of joined names (an unused `recurse` flag is also
    accepted);
  * `file_rename_` — issue a single `uv_fs_rename` and ignore its result.

The native libuv calls are modelled as oracle functions passed in as
parameters: an oracle maps each request to the integer result code (and, for
scandir, the stream of directory entries) that the native call would return.
Control flow, error translation and string manipulation are translated
directly from the C++ sources.  Each operation returns, besides its outcome,
the trace of native requests it issued, so that claims about which requests
are (not) issued can be stated.
-/

namespace Fs

set_option linter.unusedVariables false

/-- libuv error code for "file already exists" (`UV_EEXIST`, `-EEXIST` on
Linux). -/
def UV_EEXIST : Int := -17

/-- libuv end-of-stream marker returned by `uv_fs_scandir_next` (`UV_EOF`). -/
def UV_EOF : Int := -4095

/-- `uv_dirent_type_t` tag for regular files (`UV_DIRENT_FILE`). -/
def UV_DIRENT_FILE : Int := 1

/-- `uv_dirent_type_t` tag for directories (`UV_DIRENT_DIR`). -/
def UV_DIRENT_DIR : Int := 2

/-- A fatal failure surfaced to the host language: either the mode string
could not be parsed (the call aborts before touching the filesystem), or a
native call failed, carrying the message, the offending path and the native
error code (from which libuv derives the human-readable description). -/
inductive FsFailure where
  | badMode (mode_str : String)
  | opFailed (msg : String) (path : String) (code : Int)
deriving Repr, DecidableEq

/-- Modelled from the spec: `stop_for_error` is declared in the repository's
`utils.h`, which is not under `src/`.  Per the spec's error-handling design, a
native result that is a non-success code is fatal and is surfaced with the
message, the path and the native error description; libuv signals errors with
negative codes and success with non-negative ones, so the check is `code < 0`.
On success it does nothing. -/
def stop_for_error (msg path : String) (code : Int) : Except FsFailure Unit :=
  if code < 0 then Except.error (FsFailure.opFailed msg path code) else Except.ok ()

/-- The per-path loop of `mkdir_` (src/src/dir.cc, lines 20–30).  For each
path `p`, issue `uv_fs_mkdir(p, mode)` (the oracle `native` gives its result
code); if the result is not `UV_EEXIST`, pass it to `stop_for_error`, which
aborts the whole call on a negative code.  Returns the trace of issued
`(path, mode)` mkdir requests and the outcome. -/
def mkdirLoop (native : String → Nat → Int) (mode : Nat) :
    List String → List (String × Nat) × Except FsFailure Unit
  | [] => ([], Except.ok ())
  | p :: rest =>
    let fd := native p mode
    if fd = UV_EEXIST then
      let r := mkdirLoop native mode rest
      ((p, mode) :: r.1, r.2)
    else
      match stop_for_error "Failed to make directory" p fd with
      | Except.error e => ([(p, mode)], Except.error e)
      | Except.ok () =>
        let r := mkdirLoop native mode rest
        ((p, mode) :: r.1, r.2)

/-- Embedding of `mkdir_` (src/src/dir.cc).  The mode string is parsed once,
up front, by the external mode parser (`setmode`/`getmode` from the C
library, not part of this repository), modelled as the oracle `parseMode`;
per the spec, an unparseable mode string makes the call fail before any
directory-creation request is issued.  On success the parsed mode is used for
every path in the loop. -/
def mkdir_ (parseMode : String → Option Nat) (native : String → Nat → Int)
    (path : List String) (mode_str : String) :
    List (String × Nat) × Except FsFailure Unit :=
  match parseMode mode_str with
  | none => ([], Except.error (FsFailure.badMode mode_str))
  | some mode => mkdirLoop native mode path

/-- One result of `uv_fs_scandir_next`: either a directory entry
(`uv_dirent_t`, result code `0`) with its name and integer type tag, or a
negative non-`UV_EOF` error code.  End of stream (`UV_EOF`) is the end of the
list. -/
inductive ScanStep where
  | ent (name : String) (ty : Int)
  | fail (code : Int)
deriving Repr, DecidableEq

/-- What the native layer returns for one scanned path: the result code of
`uv_fs_scandir` (number of entries when non-negative, error when negative)
and the stream of `uv_fs_scandir_next` results consumed if the open
succeeded. -/
structure ScanNative where
  res : Int
  steps : List ScanStep
deriving Repr, DecidableEq

/-- The filter test from src/src/dir.cc line 52:
`file_type == -1 || e.type == (uv_dirent_type_t)file_type`. -/
def passesFilter (file_type ty : Int) : Bool :=
  file_type == -1 || ty == file_type

/-- The check `p[strlen(p) - 1] == '/'` from src/src/dir.cc line 62: the last
byte of `p` is a slash (`'/'` is ASCII, so this is the last character). -/
def lastIsSlash (p : String) : Bool :=
  p.toList.getLast? == some '/'

/-- The three-way join of a directory prefix with an entry name
(src/src/dir.cc, lines 57–65): bare name when the prefix is `"."`, direct
concatenation when the prefix already ends in `'/'`, otherwise a single
`'/'` is inserted. -/
def joinPath (p name : String) : String :=
  if p = "." then name
  else if lastIsSlash p then p ++ name
  else p ++ "/" ++ name

/-- The entry loop of `scandir_` (src/src/dir.cc, lines 49–70) for one path
`p`: step through the stream until `UV_EOF`; each entry that passes the
filter contributes its joined name; a failing step is passed to
`stop_for_error` and aborts the whole call (the entry variable holds stale
data at that point, but the abort makes any push of it unobservable). -/
def scanSteps (p : String) (file_type : Int) :
    List ScanStep → Except FsFailure (List String)
  | [] => Except.ok []
  | ScanStep.ent name ty :: rest =>
    match scanSteps p file_type rest with
    | Except.error e => Except.error e
    | Except.ok files =>
      Except.ok (if passesFilter file_type ty then joinPath p name :: files else files)
  | ScanStep.fail code :: _ =>
    Except.error (FsFailure.opFailed "Failed to search directory" p code)

/-- The per-path loop of `scandir_` (src/src/dir.cc, lines 42–75).  For each
path, `uv_fs_scandir` is issued (its result is `(native p).res`); a negative
result is fatal via `stop_for_error`; otherwise the entry stream is consumed.
`files` accumulates across all paths into one flat sequence, matching the
single `std::vector<std::string> files` declared outside the path loop.
Returns the trace of paths for which a scandir request was issued and the
outcome. -/
def scandirLoop (native : String → ScanNative) (file_type : Int) :
    List String → List String × Except FsFailure (List String)
  | [] => ([], Except.ok [])
  | p :: rest =>
    match stop_for_error "Failed to search directory" p (native p).res with
    | Except.error e => ([p], Except.error e)
    | Except.ok () =>
      match scanSteps p file_type (native p).steps with
      | Except.error e => ([p], Except.error e)
      | Except.ok files =>
        let r := scandirLoop native file_type rest
        (p :: r.1,
          match r.2 with
          | Except.error e => Except.error e
          | Except.ok more => Except.ok (files ++ more))

/-- Embedding of `scandir_` (src/src/dir.cc).  The `recurse` flag is accepted
but never read by the source, and the per-path `List out` built by
`SET_VECTOR_ELT` is discarded: the function returns `wrap(files)`, the flat
accumulated vector.  The result is the trace of issued scandir requests and
the outcome. -/
def scandir_ (native : String → ScanNative) (path : List String)
    (type : Int) (recurse : Bool) :
    List String × Except FsFailure (List String) :=
  scandirLoop native type path

/-- Embedding of `file_rename_` (src/src/rename.cc): issue a single blocking
`uv_fs_rename(path, new_path)` request and discard its result code — the
source never checks it, so no error can be raised.  Returns the trace of
issued rename requests and the (always successful) outcome. -/
def file_rename_ (native : String → String → Int) (path new_path : String) :
    List (String × String) × Except FsFailure Unit :=
  let _ := native path new_path
  ([(path, new_path)], Except.ok ())

/-- Holds of steps that carry a directory entry. -/
def ScanStep.isEnt : ScanStep → Bool
  | ScanStep.ent _ _ => true
  | ScanStep.fail _ => false

/-- The `(name, type)` pairs of the entry steps of a stream. -/
def entsOf : List ScanStep → List (String × Int)
  | [] => []
  | ScanStep.ent n t :: r => (n, t) :: entsOf r
  | ScanStep.fail _ :: r => entsOf r

/-- An error-free entry stream: every step carries an entry. -/
def allEnt (steps : List ScanStep) : Bool := steps.all ScanStep.isEnt

/-- The names contributed by one scanned path on the success path: entries
filtered by `passesFilter`, joined with `joinPath`. -/
def cleanScan (p : String) (t : Int) (es : List (String × Int)) : List String :=
  (es.filter fun e => passesFilter t e.2).map fun e => joinPath p e.1

/-- A sample scandir oracle used to instantiate theorems at concrete inputs:
`"suberr"` fails to open, `"steperr"` opens but fails on its second step,
`"d1"` holds a file and a directory, and every other path holds one file. -/
def sampleScan : String → ScanNative := fun q =>
  if q = "suberr" then ⟨-2, []⟩
  else if q = "steperr" then ⟨2, [ScanStep.ent "a" UV_DIRENT_FILE, ScanStep.fail (-5)]⟩
  else if q = "d1" then ⟨2, [ScanStep.ent "a" UV_DIRENT_FILE, ScanStep.ent "b" UV_DIRENT_DIR]⟩
  else ⟨1, [ScanStep.ent "c" UV_DIRENT_FILE]⟩

/-! Helper lemmas shared by the claim theorems. -/

lemma stop_for_error_ok (msg path : String) (code : Int) (h : 0 ≤ code) :
    stop_for_error msg path code = Except.ok () := by
  simp [stop_for_error, not_lt.mpr h]

lemma mkdirLoop_cons_ok (native : String → Nat → Int) (mode : Nat) (p : String)
    (rest : List String) (h : native p mode = UV_EEXIST ∨ 0 ≤ native p mode) :
    mkdirLoop native mode (p :: rest) =
      ((p, mode) :: (mkdirLoop native mode rest).1, (mkdirLoop native mode rest).2) := by
  rcases h with h | h
  · simp [mkdirLoop, h]
  · by_cases he : native p mode = UV_EEXIST
    · simp [mkdirLoop, he]
    · simp [mkdirLoop, he, stop_for_error_ok _ _ _ h]

lemma mkdirLoop_cons_err (native : String → Nat → Int) (mode : Nat) (p : String)
    (rest : List String) (hne : native p mode ≠ UV_EEXIST) (hlt : native p mode < 0) :
    mkdirLoop native mode (p :: rest) =
      ([(p, mode)],
        Except.error (FsFailure.opFailed "Failed to make directory" p (native p mode))) := by
  simp [mkdirLoop, hne, stop_for_error, hlt]

lemma mkdirLoop_fail_fast (native : String → Nat → Int) (mode : Nat)
    (post : List String) (p : String)
    (hne : native p mode ≠ UV_EEXIST) (hlt : native p mode < 0) :
    ∀ pre : List String,
      (∀ q ∈ pre, native q mode = UV_EEXIST ∨ 0 ≤ native q mode) →
      mkdirLoop native mode (pre ++ p :: post) =
        (pre.map (fun q => (q, mode)) ++ [(p, mode)],
          Except.error (FsFailure.opFailed "Failed to make directory" p (native p mode))) := by
  intro pre
  induction pre with
  | nil => intro _; simpa using mkdirLoop_cons_err native mode p post hne hlt
  | cons q qs ih =>
    intro hpre
    rw [List.cons_append,
      mkdirLoop_cons_ok native mode q _ (hpre q (List.mem_cons_self q qs)),
      ih fun x hx => hpre x (List.mem_cons_of_mem q hx)]
    simp

lemma allEnt_cons {s : ScanStep} {rest : List ScanStep}
    (h : allEnt (s :: rest) = true) : s.isEnt = true ∧ allEnt rest = true := by
  simpa [allEnt, List.all_cons, Bool.and_eq_true] using h

lemma scanSteps_allEnt (p : String) (t : Int) (steps : List ScanStep)
    (h : allEnt steps = true) :
    scanSteps p t steps = Except.ok (cleanScan p t (entsOf steps)) := by
  induction steps with
  | nil => simp [scanSteps, cleanScan, entsOf]
  | cons s rest ih =>
    cases s with
    | ent n ty =>
      rw [scanSteps, ih (allEnt_cons h).2]
      by_cases hp : passesFilter t ty = true
      · simp [cleanScan, entsOf, hp]
      · simp [cleanScan, entsOf, hp]
    | fail c =>
      exact absurd (allEnt_cons h).1 (by simp [ScanStep.isEnt])

lemma scandirLoop_clean (native : String → ScanNative) (t : Int)
    (paths : List String)
    (h : ∀ p ∈ paths, 0 ≤ (native p).res ∧ allEnt (native p).steps = true) :
    scandirLoop native t paths =
      (paths,
        Except.ok
          ((paths.map fun p => cleanScan p t (entsOf (native p).steps)).flatten)) := by
  induction paths with
  | nil => simp [scandirLoop]
  | cons p rest ih =>
    obtain ⟨hres, hsteps⟩ := h p (List.mem_cons_self p rest)
    rw [scandirLoop, stop_for_error_ok _ _ _ hres, scanSteps_allEnt p t _ hsteps,
      ih fun q hq => h q (List.mem_cons_of_mem p hq)]
    simp

lemma scanSteps_first_fail (p : String) (t : Int) (c : Int) (rest : List ScanStep) :
    ∀ good : List ScanStep, allEnt good = true →
      scanSteps p t (good ++ ScanStep.fail c :: rest) =
        Except.error (FsFailure.opFailed "Failed to search directory" p c) := by
  intro good
  induction good with
  | nil => intro _; simp [scanSteps]
  | cons s gs ih =>
    intro hgood
    cases s with
    | ent n ty =>
      rw [List.cons_append, scanSteps, ih (allEnt_cons hgood).2]
    | fail c2 =>
      exact absurd (allEnt_cons hgood).1 (by simp [ScanStep.isEnt])

lemma scandirLoop_append_error (native : String → ScanNative) (t : Int)
    (l : List String) (tr : List String) (e : FsFailure)
    (hl : scandirLoop native t l = (tr, Except.error e)) :
    ∀ pre : List String,
      (∀ q ∈ pre, 0 ≤ (native q).res ∧ allEnt (native q).steps = true) →
      scandirLoop native t (pre ++ l) = (pre ++ tr, Except.error e) := by
  intro pre
  induction pre with
  | nil => intro _; simpa using hl
  | cons q qs ih =>
    intro hpre
    obtain ⟨hres, hsteps⟩ := hpre q (List.mem_cons_self q qs)
    rw [List.cons_append, scandirLoop, stop_for_error_ok _ _ _ hres,
      scanSteps_allEnt q t _ hsteps, ih fun x hx => hpre x (List.mem_cons_of_mem q hx)]
    simp

/-! The claim theorems. -/

/-- C1: for every sequence of paths and parseable mode string, a path whose
native mkdir reports `UV_EEXIST` is treated as a success by `mkdir_`: the
call's outcome is the same as if that path were absent, and, when the path is
next in line, the request is issued and processing continues with the
remaining paths unchanged. -/
theorem mkdir_eexist_is_success
    (parseMode : String → Option Nat) (native : String → Nat → Int)
    (mode_str : String) (mode : Nat) (pre post : List String) (p : String)
    (hparse : parseMode mode_str = some mode)
    (heexist : native p mode = UV_EEXIST) :
    (mkdir_ parseMode native (pre ++ p :: post) mode_str).2 =
      (mkdir_ parseMode native (pre ++ post) mode_str).2 ∧
    mkdir_ parseMode native (p :: post) mode_str =
      ((p, mode) :: (mkdir_ parseMode native post mode_str).1,
        (mkdir_ parseMode native post mode_str).2) := by
  have hstep : ∀ l, mkdirLoop native mode (p :: l) =
      ((p, mode) :: (mkdirLoop native mode l).1, (mkdirLoop native mode l).2) :=
    fun l => mkdirLoop_cons_ok native mode p l (Or.inl heexist)
  constructor
  · simp only [mkdir_, hparse]
    induction pre with
    | nil => simp [hstep]
    | cons q qs ih =>
      by_cases hq : native q mode = UV_EEXIST
      · rw [List.cons_append, List.cons_append,
          mkdirLoop_cons_ok native mode q _ (Or.inl hq),
          mkdirLoop_cons_ok native mode q _ (Or.inl hq)]
        exact ih
      · by_cases hlt : native q mode < 0
        · rw [List.cons_append, List.cons_append,
            mkdirLoop_cons_err native mode q _ hq hlt,
            mkdirLoop_cons_err native mode q _ hq hlt]
        · rw [List.cons_append, List.cons_append,
            mkdirLoop_cons_ok native mode q _ (Or.inr (not_lt.mp hlt)),
            mkdirLoop_cons_ok native mode q _ (Or.inr (not_lt.mp hlt))]
          exact ih
  · simp only [mkdir_, hparse]
    exact hstep post

/-- Witness for C1 at a concrete input: parse succeeds, every native mkdir
reports `UV_EEXIST`, and the call still succeeds and visits every path. -/
theorem mkdir_eexist_is_success_witness :
    (mkdir_ (fun _ => some 7) (fun _ _ => UV_EEXIST)
        (["a"] ++ "x" :: ["b"]) "755").2 =
      (mkdir_ (fun _ => some 7) (fun _ _ => UV_EEXIST) (["a"] ++ ["b"]) "755").2 ∧
    mkdir_ (fun _ => some 7) (fun _ _ => UV_EEXIST) ("x" :: ["b"]) "755" =
      (("x", 7) :: (mkdir_ (fun _ => some 7) (fun _ _ => UV_EEXIST) ["b"] "755").1,
        (mkdir_ (fun _ => some 7) (fun _ _ => UV_EEXIST) ["b"] "755").2) :=
  mkdir_eexist_is_success (fun _ => some 7) (fun _ _ => UV_EEXIST)
    "755" 7 ["a"] ["b"] "x" rfl rfl

/-- C2: `file_rename_` issues exactly one rename request for the given pair
of paths and always reports success, whatever result code the native rename
returns. -/
theorem file_rename_silent (native : String → String → Int)
    (path new_path : String) :
    file_rename_ native path new_path = ([(path, new_path)], Except.ok ()) := rfl

/-- C5: `mkdir_` consults the mode parser once, up front: an unparseable mode
string makes the call fail with no mkdir request issued (the trace is empty,
so the filesystem is untouched), and a parseable one hands the parsed mode to
the per-path loop. -/
theorem mkdir_parse_up_front
    (parseMode : String → Option Nat) (native : String → Nat → Int)
    (path : List String) (mode_str : String) :
    (parseMode mode_str = none →
      mkdir_ parseMode native path mode_str =
        ([], Except.error (FsFailure.badMode mode_str))) ∧
    (∀ mode, parseMode mode_str = some mode →
      mkdir_ parseMode native path mode_str = mkdirLoop native mode path) := by
  constructor
  · intro h; simp [mkdir_, h]
  · intro mode h; simp [mkdir_, h]

/-- Witness for C5 at concrete inputs: an unparseable mode string yields the
bad-mode failure with an empty request trace, and a parseable one runs the
loop. -/
theorem mkdir_parse_up_front_witness :
    mkdir_ (fun _ => none) (fun _ _ => 0) ["a", "b"] "bogus" =
      ([], Except.error (FsFailure.badMode "bogus")) ∧
    mkdir_ (fun _ => some 7) (fun _ _ => 0) ["a", "b"] "755" =
      mkdirLoop (fun _ _ => 0) 7 ["a", "b"] :=
  ⟨(mkdir_parse_up_front (fun _ => none) (fun _ _ => 0) ["a", "b"] "bogus").1 rfl,
    (mkdir_parse_up_front (fun _ => some 7) (fun _ _ => 0) ["a", "b"] "755").2 7 rfl⟩

/-- C8: the `recurse` flag of `scandir_` has no effect: for every oracle,
path sequence and filter, the trace of issued native requests and the outcome
are identical for any two values of the flag. -/
theorem scandir_recurse_inert (native : String → ScanNative)
    (path : List String) (type : Int) (r1 r2 : Bool) :
    scandir_ native path type r1 = scandir_ native path type r2 := rfl

/-- C9: `mkdir_` processes its paths in sequence order and aborts at the
first path whose native mkdir fails with a non-tolerated error: the request
trace is exactly the earlier paths (their creations stand, nothing is rolled
back) followed by the failing path, so no request is issued past it, and the
outcome is the failure for that path. -/
theorem mkdir_fail_fast
    (parseMode : String → Option Nat) (native : String → Nat → Int)
    (mode_str : String) (mode : Nat) (pre post : List String) (p : String)
    (hparse : parseMode mode_str = some mode)
    (hpre : ∀ q ∈ pre, native q mode = UV_EEXIST ∨ 0 ≤ native q mode)
    (hne : native p mode ≠ UV_EEXIST) (hlt : native p mode < 0) :
    mkdir_ parseMode native (pre ++ p :: post) mode_str =
      (pre.map (fun q => (q, mode)) ++ [(p, mode)],
        Except.error (FsFailure.opFailed "Failed to make directory" p (native p mode))) := by
  simp only [mkdir_, hparse]
  exact mkdirLoop_fail_fast native mode post p hne hlt pre hpre

/-- Witness for C9 at a concrete input: with `"a"` succeeding, `"bad"`
failing with `-13`, and `"c"` after it, the call issues requests for `"a"`
and `"bad"` only and aborts with the failure for `"bad"`. -/
theorem mkdir_fail_fast_witness :
    mkdir_ (fun _ => some 7) (fun q _ => if q = "bad" then (-13 : Int) else 0)
        (["a"] ++ "bad" :: ["c"]) "755" =
      ([("a", 7), ("bad", 7)],
        Except.error (FsFailure.opFailed "Failed to make directory" "bad" (-13))) := by
  have := mkdir_fail_fast (fun _ => some 7)
    (fun q _ => if q = "bad" then (-13 : Int) else 0) "755" 7 ["a"] ["c"] "bad"
    rfl (by decide) (by decide) (by decide)
  simpa using this

/-- C3: `scandir_` joins a directory prefix with an entry name by exactly the
three-case rule of `joinPath`: the bare name when the prefix is `"."`, direct
concatenation (no doubled separator) when the prefix already ends in `'/'`,
and otherwise the prefix, one `'/'`, then the name; on a successful scan each
entry passing the filter contributes exactly its `joinPath`-joined name. -/
theorem scandir_join_rule :
    (∀ name, joinPath "." name = name) ∧
    (∀ p name, p ≠ "." → lastIsSlash p = true → joinPath p name = p ++ name) ∧
    (∀ p name, p ≠ "." → lastIsSlash p = false →
      joinPath p name = p ++ "/" ++ name) ∧
    (∀ (native : String → ScanNative) (p : String) (type : Int) (recurse : Bool)
        (steps : List ScanStep),
      native p = ⟨(steps.length : Int), steps⟩ → allEnt steps = true →
      (scandir_ native [p] type recurse).2 =
        Except.ok
          (((entsOf steps).filter fun e => passesFilter type e.2).map
            fun e => joinPath p e.1)) := by
  refine ⟨fun name => by simp [joinPath], ?_, ?_, ?_⟩
  · intro p name hp hs; simp [joinPath, hp, hs]
  · intro p name hp hs; simp [joinPath, hp, hs]
  · intro native p t r steps hnat hall
    have hclean : ∀ q ∈ [p], 0 ≤ (native q).res ∧ allEnt (native q).steps = true := by
      intro q hq
      rw [List.mem_singleton] at hq
      subst hq
      rw [hnat]
      exact ⟨Int.natCast_nonneg _, hall⟩
    show (scandirLoop native t [p]).2 = _
    rw [scandirLoop_clean native t [p] hclean]
    simp [hnat, cleanScan]

/-- Witness for C3 at concrete inputs: the three join cases on concrete
strings, and a concrete one-path scan whose joined results carry a single
separator. -/
theorem scandir_join_rule_witness :
    joinPath "." "file" = "file" ∧
    joinPath "/tmp/" "file" = "/tmp/file" ∧
    joinPath "/tmp" "file" = "/tmp/file" ∧
    (scandir_ sampleScan ["d1"] (-1) true).2 = Except.ok ["d1/a", "d1/b"] :=
  ⟨scandir_join_rule.1 "file",
    scandir_join_rule.2.1 "/tmp/" "file" (by decide) (by decide),
    scandir_join_rule.2.2.1 "/tmp" "file" (by decide) (by decide),
    scandir_join_rule.2.2.2 sampleScan "d1" (-1) true
      [ScanStep.ent "a" UV_DIRENT_FILE, ScanStep.ent "b" UV_DIRENT_DIR]
      (by decide) (by decide)⟩

/-- C4: a failing native result while scanning — a negative open result, or a
negative non-`UV_EOF` step result after any run of successful steps — makes
`scandir_` abort the whole call with a failure carrying that path and the
native error code; the returned outcome is only that failure, so every entry
accumulated before it (from earlier paths or earlier steps) is discarded. -/
theorem scandir_failure_fatal (native : String → ScanNative) (type : Int)
    (recurse : Bool) (pre post : List String) (p : String)
    (hpre : ∀ q ∈ pre, 0 ≤ (native q).res ∧ allEnt (native q).steps = true) :
    ((native p).res < 0 →
      scandir_ native (pre ++ p :: post) type recurse =
        (pre ++ [p],
          Except.error
            (FsFailure.opFailed "Failed to search directory" p (native p).res))) ∧
    (∀ (good : List ScanStep) (c : Int) (rest2 : List ScanStep),
      0 ≤ (native p).res → c < 0 → c ≠ UV_EOF →
      (native p).steps = good ++ ScanStep.fail c :: rest2 →
      allEnt good = true →
      scandir_ native (pre ++ p :: post) type recurse =
        (pre ++ [p],
          Except.error (FsFailure.opFailed "Failed to search directory" p c))) := by
  constructor
  · intro hbad
    have hp : scandirLoop native type (p :: post) =
        ([p],
          Except.error
            (FsFailure.opFailed "Failed to search directory" p (native p).res)) := by
      rw [scandirLoop]
      simp [stop_for_error, hbad]
    exact scandirLoop_append_error native type (p :: post) [p] _ hp pre hpre
  · intro good c rest2 hres hc hceof hsteps hgood
    have hp : scandirLoop native type (p :: post) =
        ([p], Except.error (FsFailure.opFailed "Failed to search directory" p c)) := by
      rw [scandirLoop, stop_for_error_ok _ _ _ hres, hsteps,
        scanSteps_first_fail p type c rest2 good hgood]
    exact scandirLoop_append_error native type (p :: post) [p] _ hp pre hpre

/-- Witness for C4 at concrete inputs: after a clean path `"d1"`, an open
failure at `"suberr"` and, separately, a step failure at `"steperr"` each
abort the call with only the failure, no partial listing. -/
theorem scandir_failure_fatal_witness :
    scandir_ sampleScan (["d1"] ++ "suberr" :: ["z"]) (-1) false =
      (["d1", "suberr"],
        Except.error (FsFailure.opFailed "Failed to search directory" "suberr" (-2))) ∧
    scandir_ sampleScan (["d1"] ++ "steperr" :: ["z"]) (-1) false =
      (["d1", "steperr"],
        Except.error (FsFailure.opFailed "Failed to search directory" "steperr" (-5))) := by
  constructor
  · have := (scandir_failure_fatal sampleScan (-1) false ["d1"] ["z"] "suberr"
      (by decide)).1 (by decide)
    simpa using this
  · have := (scandir_failure_fatal sampleScan (-1) false ["d1"] ["z"] "steperr"
      (by decide)).2 [ScanStep.ent "a" UV_DIRENT_FILE] (-5) []
      (by decide) (by decide) (by decide) (by decide) (by decide)
    simpa using this

/-- C6: an entry survives the filter of `scandir_` exactly when the filter is
`-1` or the entry's type tag equals the filter value; in particular the
directory filter excludes regular files and the file filter excludes
directories; on a successful one-path scan the result is precisely the
filtered, joined entries. -/
theorem scandir_filter_iff :
    (∀ file_type ty, passesFilter file_type ty = true ↔
      (file_type = -1 ∨ ty = file_type)) ∧
    passesFilter UV_DIRENT_DIR UV_DIRENT_FILE = false ∧
    passesFilter UV_DIRENT_FILE UV_DIRENT_DIR = false ∧
    (∀ (native : String → ScanNative) (p : String) (type : Int) (recurse : Bool)
        (steps : List ScanStep),
      native p = ⟨(steps.length : Int), steps⟩ → allEnt steps = true →
      (scandir_ native [p] type recurse).2 =
        Except.ok (cleanScan p type (entsOf steps))) := by
  refine ⟨?_, by decide, by decide, ?_⟩
  · intro t ty
    simp [passesFilter]
  · intro native p t r steps hnat hall
    have hclean : ∀ q ∈ [p], 0 ≤ (native q).res ∧ allEnt (native q).steps = true := by
      intro q hq
      rw [List.mem_singleton] at hq
      subst hq
      rw [hnat]
      exact ⟨Int.natCast_nonneg _, hall⟩
    show (scandirLoop native t [p]).2 = _
    rw [scandirLoop_clean native t [p] hclean]
    simp [hnat]

/-- Witness for C6 at concrete inputs: the no-filter sentinel accepts a file
entry, and scanning a path holding one regular file under the directory
filter returns the empty listing. -/
theorem scandir_filter_iff_witness :
    passesFilter (-1) UV_DIRENT_FILE = true ∧
    (scandir_ sampleScan ["other"] UV_DIRENT_DIR true).2 = Except.ok [] :=
  ⟨(scandir_filter_iff.1 (-1) UV_DIRENT_FILE).mpr (Or.inl rfl),
    scandir_filter_iff.2.2.2 sampleScan "other" UV_DIRENT_DIR true
      [ScanStep.ent "c" UV_DIRENT_FILE] (by decide) (by decide)⟩

/-- C7: on a scan where every path opens successfully and every step yields
an entry, `scandir_` returns one flat sequence: the concatenation, in input
order, of each path's filtered joined entries, each exactly once, with no
per-path bucketing in the output. -/
theorem scandir_flat_concat (native : String → ScanNative) (type : Int)
    (recurse : Bool) (path : List String)
    (h : ∀ p ∈ path, 0 ≤ (native p).res ∧ allEnt (native p).steps = true) :
    scandir_ native path type recurse =
      (path,
        Except.ok
          ((path.map fun p => cleanScan p type (entsOf (native p).steps)).flatten)) :=
  scandirLoop_clean native type path h

/-- Witness for C7 at a concrete input: scanning two paths yields the two
listings concatenated into one flat sequence. -/
theorem scandir_flat_concat_witness :
    scandir_ sampleScan ["d1", "other"] (-1) true =
      (["d1", "other"], Except.ok ["d1/a", "d1/b", "other/c"]) := by
  have := scandir_flat_concat sampleScan (-1) true ["d1", "other"] (by decide)
  simpa using this

/-- C10: a filter value that is neither `-1` nor the type tag of any scanned
entry is not rejected by `scandir_`: the call still succeeds and those
entries contribute nothing, so the result is the empty sequence. -/
theorem scandir_unknown_filter_empty (native : String → ScanNative)
    (type : Int) (recurse : Bool) (path : List String)
    (hne : type ≠ -1)
    (h : ∀ p ∈ path, 0 ≤ (native p).res ∧ allEnt (native p).steps = true ∧
        ∀ e ∈ entsOf (native p).steps, e.2 ≠ type) :
    scandir_ native path type recurse = (path, Except.ok []) := by
  have hclean : ∀ p ∈ path, 0 ≤ (native p).res ∧ allEnt (native p).steps = true :=
    fun p hp => ⟨(h p hp).1, (h p hp).2.1⟩
  show scandirLoop native type path = _
  rw [scandirLoop_clean native type path hclean]
  have hempty : ∀ p ∈ path, cleanScan p type (entsOf (native p).steps) = [] := by
    intro p hp
    have hmiss := (h p hp).2.2
    simp only [cleanScan, List.map_eq_nil_iff, List.filter_eq_nil_iff]
    intro e he
    simp [passesFilter, hne, hmiss e he]
  congr 1
  congr 1
  rw [List.flatten_eq_nil_iff]
  intro l hl
  obtain ⟨p, hp, rfl⟩ := List.mem_map.mp hl
  exact hempty p hp

/-- Witness for C10 at a concrete input: scanning a path holding entries of
types 1 and 2 with the out-of-range filter 99 succeeds with the empty
result. -/
theorem scandir_unknown_filter_empty_witness :
    scandir_ sampleScan ["d1"] 99 false = (["d1"], Except.ok []) :=
  scandir_unknown_filter_empty sampleScan 99 false ["d1"] (by decide) (by decide)

end Fs
